import Mathlib

/-!
Verification of the relay-with-fallback reposter bot against a shallow
embedding of its source (src/main.py).  The embedding models the pure data
flow of the program: settings loading, identifier extraction, the forward
call with its one-shot topic fallback, the three event handlers and the
router registrations.  The transport (the messaging-platform client) is an
external collaborator and is modelled as a function from forward-call
parameters to a success-or-typed-failure result.
-/

set_option maxHeartbeats 1000000

/-- ASCII whitespace as recognised by Python's str.split with no separator
argument (unicode whitespace is out of scope for the inputs this program
splits, which contain only ASCII separators). -/
def isPySpace (c : Char) : Bool :=
  c == ' ' || c == '\t' || c == '\n' || c == '\r' || c == Char.ofNat 11 || c == Char.ofNat 12

/-- Python str.split with no separator argument: maximal runs of
non-whitespace characters, with no empty groups. -/
def pySplit (l : List Char) : List (List Char) :=
  match l with
  | [] => []
  | c :: cs =>
    if isPySpace c then pySplit cs
    else (c :: cs.takeWhile (fun x => !isPySpace x)) :: pySplit (cs.dropWhile (fun x => !isPySpace x))
termination_by l.length
decreasing_by
  · simp only [List.length_cons]
    omega
  · simp only [List.length_cons]
    exact Nat.lt_succ_of_le ((List.dropWhile_sublist _).length_le)

/-- Numeric value of a string of decimal digits, as Python int applied to an
all-digit string. -/
def digitsToNat (l : List Char) : Nat :=
  l.foldl (fun acc c => acc * 10 + (c.toNat - 48)) 0

/-- The character mapping inside parse_message_id: the character itself when
it is a decimal digit, a space otherwise (Python str.isdigit coincides with
Char.isDigit on the ASCII inputs in scope). -/
def mapToSpace (ch : Char) : Char := if ch.isDigit then ch else ' '

/-- Embeds parse_message_id (src/main.py lines 64-67): replace every
non-digit character with a space, split on whitespace, and return the last
group parsed as an integer, or none when no group exists. -/
def parse_message_id (text : String) : Option Nat :=
  let digits := pySplit (text.data.map mapToSpace)
  (digits.getLast?).map digitsToNat

/-- The spec's notion of the maximal runs of decimal digits of a string, in
order of appearance (spec section 4.1), written independently of the
map-then-split computation of the source. -/
def digitRuns (l : List Char) : List (List Char) :=
  match l with
  | [] => []
  | c :: cs =>
    if c.isDigit then (c :: cs.takeWhile Char.isDigit) :: digitRuns (cs.dropWhile Char.isDigit)
    else digitRuns cs
termination_by l.length
decreasing_by
  · simp only [List.length_cons]
    exact Nat.lt_succ_of_le ((List.dropWhile_sublist _).length_le)
  · simp only [List.length_cons]
    omega

theorem pyspace_not_digit (c : Char) (h : isPySpace c = true) : c.isDigit = false := by
  simp only [isPySpace, Bool.or_eq_true, beq_iff_eq] at h
  rcases h with ((((h | h) | h) | h) | h) | h <;> subst h <;> decide

theorem digit_not_pyspace (c : Char) (h : c.isDigit = true) : isPySpace c = false := by
  cases hs : isPySpace c
  · rfl
  · rw [pyspace_not_digit c hs] at h
    exact absurd h (by decide)

theorem not_pyspace_map (x : Char) : (!isPySpace (mapToSpace x)) = x.isDigit := by
  unfold mapToSpace
  cases hx : x.isDigit
  · simp only [Bool.false_eq_true, if_false]
    decide
  · simp only [if_true]
    rw [digit_not_pyspace x hx]
    rfl

theorem map_mapToSpace_digits (l : List Char) (h : ∀ x ∈ l, x.isDigit = true) :
    l.map mapToSpace = l := by
  induction l with
  | nil => rfl
  | cons a t ih =>
    simp only [List.map_cons]
    rw [ih (fun x hx => h x (List.mem_cons_of_mem _ hx))]
    have ha := h a (List.mem_cons_self _ _)
    unfold mapToSpace
    rw [ha]
    simp

/-- The source's map-non-digits-to-space-then-split computation produces
exactly the maximal decimal-digit runs of the original string. -/
theorem pySplit_map_eq : ∀ l : List Char, pySplit (l.map mapToSpace) = digitRuns l
  | [] => by simp [pySplit, digitRuns]
  | c :: cs => by
    simp only [List.map_cons]
    by_cases hc : c.isDigit = true
    · have hmc : mapToSpace c = c := by unfold mapToSpace; rw [hc]; rfl
      have hsp : isPySpace c = false := digit_not_pyspace c hc
      rw [hmc]
      rw [pySplit]
      rw [hsp]
      simp only [Bool.false_eq_true, if_false]
      have hfun : (fun x => !isPySpace (mapToSpace x)) = Char.isDigit := funext not_pyspace_map
      rw [List.takeWhile_map, List.dropWhile_map]
      simp only [Function.comp_def]
      rw [hfun]
      rw [map_mapToSpace_digits (cs.takeWhile Char.isDigit)
        (fun x hx => List.mem_takeWhile_imp hx)]
      rw [pySplit_map_eq (cs.dropWhile Char.isDigit)]
      rw [digitRuns]
      rw [hc]
      simp
    · have hc' : c.isDigit = false := by
        cases hcc : c.isDigit
        · rfl
        · exact absurd hcc hc
      have hmc : mapToSpace c = ' ' := by unfold mapToSpace; rw [hc']; rfl
      rw [hmc]
      rw [pySplit]
      have : isPySpace ' ' = true := by decide
      rw [this]
      simp only [if_true]
      rw [pySplit_map_eq cs]
      rw [digitRuns]
      rw [hc']
      simp
termination_by l => l.length
decreasing_by
  · simp only [List.length_cons]
    exact Nat.lt_succ_of_le ((List.dropWhile_sublist _).length_le)
  · simp only [List.length_cons]
    omega

theorem digitRuns_eq_nil (l : List Char) (h : ∀ c ∈ l, c.isDigit = false) :
    digitRuns l = [] := by
  induction l with
  | nil => simp [digitRuns]
  | cons a t ih =>
    rw [digitRuns]
    rw [h a (List.mem_cons_self _ _)]
    simp only [Bool.false_eq_true, if_false]
    exact ih (fun c hc => h c (List.mem_cons_of_mem _ hc))

/-- C3: for every string, parse_message_id returns the integer value of the
last maximal run of decimal digits (not the largest, not the first), and
returns absent for strings with no digit at all. -/
theorem parse_message_id_last_digit_run (s : String) :
    parse_message_id s = ((digitRuns s.data).getLast?).map digitsToNat ∧
    ((∀ c ∈ s.data, c.isDigit = false) → parse_message_id s = none) := by
  have h1 : parse_message_id s = ((digitRuns s.data).getLast?).map digitsToNat := by
    unfold parse_message_id
    rw [pySplit_map_eq]
  refine ⟨h1, fun hnone => ?_⟩
  rw [h1, digitRuns_eq_nil s.data hnone]
  rfl

/-- C3 witness: the theorem applied to concrete inputs, covering the
no-digit case, the link case and the several-runs case. -/
theorem parse_message_id_last_digit_run_witness :
    parse_message_id "abc" = none ∧
    parse_message_id "https://t.me/pervyi_shot/231" = some 231 ∧
    parse_message_id "12 and 34" = some 34 := by
  refine ⟨(parse_message_id_last_digit_run "abc").2 (by decide), ?_, ?_⟩
  · simp [parse_message_id, pySplit, isPySpace, mapToSpace, digitsToNat]
  · simp [parse_message_id, pySplit, isPySpace, mapToSpace, digitsToNat]

/-- Immutable configuration (src/main.py lines 23-30).  The request timeout,
a Python float in the source, is modelled as a rational number. -/
structure Settings where
  bot_token : String
  source_channel_id : Int
  target_chat_id : Int
  target_topic_id : Option Int
  proxy_url : Option String
  request_timeout : Rat
deriving DecidableEq

/-- The process environment as read by load_settings: each recognised
variable either is unset (none) or holds a string, possibly empty. -/
structure Env where
  bot_token : Option String
  source_channel_id : Option String
  target_chat_id : Option String
  target_topic_id : Option String
  proxy_url : Option String
  request_timeout : Option String

/-- Python truthiness of an optional string: None and the empty string are
falsy, every other string is truthy. -/
def strOptTruthy : Option String → Bool
  | none => false
  | some s => !s.isEmpty

/-- Python truthiness of an optional integer: None and 0 are falsy, every
other integer is truthy. -/
def intOptTruthy : Option Int → Bool
  | none => false
  | some v => v != 0

/-- Python int applied to a string: an optional sign followed by decimal
digits (whitespace stripping and underscore separators are outside the
model); none models the ValueError raised on any other input. -/
def pyInt (s : String) : Option Int :=
  match s.data with
  | [] => none
  | '-' :: rest =>
    if !rest.isEmpty && rest.all Char.isDigit then some (-(digitsToNat rest : Int)) else none
  | '+' :: rest =>
    if !rest.isEmpty && rest.all Char.isDigit then some ((digitsToNat rest : Int)) else none
  | l =>
    if l.all Char.isDigit then some ((digitsToNat l : Int)) else none

/-- Embeds load_settings (src/main.py lines 33-58).  Python float parsing is
abstracted as the parseFloat parameter (none models ValueError, which the
source catches and replaces by the default 30.0); int parsing is pyInt,
whose ValueError propagates out of load_settings, as does the RuntimeError
raised on a missing credential, both modelled as the Except error case. -/
def load_settings (parseFloat : String → Option Rat) (env : Env) : Except String Settings :=
  if !strOptTruthy env.bot_token || !strOptTruthy env.source_channel_id
      || !strOptTruthy env.target_chat_id then
    Except.error "Заполните BOT_TOKEN, SOURCE_CHANNEL_ID и TARGET_CHAT_ID в .env"
  else
    match pyInt (env.source_channel_id.getD ""), pyInt (env.target_chat_id.getD "") with
    | some sourceId, some targetId =>
      if strOptTruthy env.target_topic_id then
        match pyInt (env.target_topic_id.getD "") with
        | some topicId =>
          Except.ok ⟨env.bot_token.getD "", sourceId, targetId, some topicId,
            (if strOptTruthy env.proxy_url then env.proxy_url else none),
            (parseFloat (env.request_timeout.getD "30")).getD 30⟩
        | none => Except.error "ValueError: invalid literal for int"
      else
        Except.ok ⟨env.bot_token.getD "", sourceId, targetId, none,
          (if strOptTruthy env.proxy_url then env.proxy_url else none),
          (parseFloat (env.request_timeout.getD "30")).getD 30⟩
    | _, _ => Except.error "ValueError: invalid literal for int"

/-- Concrete float parser used in closed instances: accepts exactly the
integer strings. -/
def parseFloatInt (s : String) : Option Rat := (pyInt s).map (fun v => (v : Rat))

theorem load_settings_fields (parseFloat : String → Option Rat) (env : Env) (s : Settings)
    (hok : load_settings parseFloat env = Except.ok s) :
    s.request_timeout = (parseFloat (env.request_timeout.getD "30")).getD 30 ∧
    (s.target_topic_id = none ↔ strOptTruthy env.target_topic_id = false) ∧
    (∀ v, s.target_topic_id = some v → pyInt (env.target_topic_id.getD "") = some v) := by
  unfold load_settings at hok
  split at hok
  · exact absurd hok (by simp)
  · split at hok
    · rename_i sourceId targetId heq
      split at hok
      · rename_i htopic
        split at hok
        · rename_i topicId heqt
          injection hok with h
          subst h
          refine ⟨rfl, ?_, ?_⟩
          · simp [htopic]
          · intro v hv
            simp at hv
            rw [← hv]
            exact heqt
        · exact absurd hok (by simp)
      · rename_i htopic
        injection hok with h
        subst h
        refine ⟨rfl, ?_, ?_⟩
        · simp
          cases hst : strOptTruthy env.target_topic_id
          · rfl
          · exact absurd hst (by simp at htopic; simp [htopic])
        · intro v hv
          simp at hv
    · exact absurd hok (by simp)

/-- C9: for every accepted environment, the request timeout is exactly 30
when the timeout variable is absent or unparsable, and the parsed value
itself when it parses (float parsing is the abstract parameter parseFloat;
the hypothesis pins the default string "30" to the rational 30). -/
theorem request_timeout_default_thirty (parseFloat : String → Option Rat) (env : Env)
    (s : Settings) (h30 : parseFloat "30" = some 30)
    (hok : load_settings parseFloat env = Except.ok s) :
    (env.request_timeout = none → s.request_timeout = 30) ∧
    (∀ raw, env.request_timeout = some raw → parseFloat raw = none → s.request_timeout = 30) ∧
    (∀ raw q, env.request_timeout = some raw → parseFloat raw = some q → s.request_timeout = q) := by
  have h := (load_settings_fields parseFloat env s hok).1
  refine ⟨?_, ?_, ?_⟩
  · intro habs
    rw [habs] at h
    simp only [Option.getD] at h
    rw [h30] at h
    simpa using h
  · intro raw hraw hnone
    rw [hraw] at h
    simp only [Option.getD] at h
    rw [hnone] at h
    simpa using h
  · intro raw q hraw hq
    rw [hraw] at h
    simp only [Option.getD] at h
    rw [hq] at h
    simpa using h

/-- Environment for closed instances: credentials set, timeout unparsable. -/
def env_badTimeout : Env := ⟨some "t", some "1", some "2", none, none, some "abc"⟩

/-- C9 witness: with an unparsable timeout string the accepted settings carry
the default timeout 30. -/
theorem request_timeout_default_thirty_witness :
    (Settings.mk "t" 1 2 none none 30).request_timeout = 30 :=
  (request_timeout_default_thirty parseFloatInt env_badTimeout
      (Settings.mk "t" 1 2 none none 30) rfl rfl).2.1 "abc" rfl rfl

/-- C8 counterexample: the environment assigning the string "0" to the topic
variable is accepted by load_settings and yields target_topic_id = some 0:
a reachable Settings value does carry the topic id zero (the source guards
with Python truthiness, under which the string "0" is truthy). -/
theorem zero_topic_id_reachable :
    (load_settings parseFloatInt ⟨some "t", some "1", some "2", some "0", none, none⟩).map
      (fun s => s.target_topic_id) = Except.ok (some 0) := rfl

/-- C8 amended: for every accepted environment, target_topic_id is absent
exactly when the topic variable is unset or empty; any other accepted value
is parsed by int and stored as given, so the topic id zero is reachable
(from the string "0") rather than impossible. -/
theorem topic_id_absent_iff_env_empty (parseFloat : String → Option Rat) (env : Env)
    (s : Settings) (hok : load_settings parseFloat env = Except.ok s) :
    (s.target_topic_id = none ↔ strOptTruthy env.target_topic_id = false) ∧
    (∀ v, s.target_topic_id = some v → pyInt (env.target_topic_id.getD "") = some v) :=
  (load_settings_fields parseFloat env s hok).2

/-- C8 amended witness: an unset topic variable yields an absent topic id,
and the env value "0" yields the stored topic id 0. -/
theorem topic_id_absent_iff_env_empty_witness :
    (Settings.mk "t" 1 2 none none 30).target_topic_id = none ∧
    pyInt ((Env.mk (some "t") (some "1") (some "2") (some "0") none none).target_topic_id.getD "")
      = some 0 := by
  constructor
  · exact (topic_id_absent_iff_env_empty parseFloatInt
      (Env.mk (some "t") (some "1") (some "2") none none none)
      (Settings.mk "t" 1 2 none none 30) rfl).1.mpr rfl
  · exact (topic_id_absent_iff_env_empty parseFloatInt
      (Env.mk (some "t") (some "1") (some "2") (some "0") none none)
      (Settings.mk "t" 1 2 (some 0) none 30) rfl).2 0 rfl

/-- Typed failures raised by the transport, mirroring the aiogram exception
classes the source discriminates: TelegramForbiddenError and
TelegramBadRequest are subclasses of TelegramAPIError; apiOther covers the
remaining TelegramAPIError instances, and other covers every exception
outside that hierarchy.  The carried string is str(e). -/
inductive TgError where
  | forbidden (msg : String)
  | badRequest (msg : String)
  | apiOther (msg : String)
  | other (msg : String)
deriving DecidableEq

/-- The parameter tuple of one bot.forward_message call. -/
structure ForwardCall where
  chat_id : Int
  from_chat_id : Int
  message_id : Int
  message_thread_id : Option Int
deriving DecidableEq

/-- Observable effects of one handler invocation: transport forward calls,
log records (abstracted to a tag) and user-facing replies. -/
inductive Eff where
  | fwd (c : ForwardCall)
  | log (tag : String)
  | reply (text : String)
deriving DecidableEq

/-- How one invocation of forward_message_with_fallback terminated: the
primary call succeeded, the no-topic retry succeeded, or an exception
escaped the function. -/
inductive FwdResult where
  | primarySuccess
  | retrySuccess
  | raised (e : TgError)
deriving DecidableEq

/-- Substring occurrence test on character lists. -/
def containsSub (needle : List Char) : List Char → Bool
  | [] => needle.isEmpty
  | c :: cs => needle.isPrefixOf (c :: cs) || containsSub needle cs

/-- The source's topic-not-found test: the substring
"message thread not found" occurs in str(e) (src/main.py line 85). -/
def isTopicMissingMsg (msg : String) : Bool :=
  containsSub "message thread not found".data msg.data

/-- The primary forward call of forward_message_with_fallback: target chat,
given source chat and message id, the configured topic id as thread id. -/
def primaryCall (s : Settings) (from_chat_id message_id : Int) : ForwardCall :=
  ⟨s.target_chat_id, from_chat_id, message_id, s.target_topic_id⟩

/-- The fallback forward call: same parameters, thread id omitted. -/
def retryCall (s : Settings) (from_chat_id message_id : Int) : ForwardCall :=
  ⟨s.target_chat_id, from_chat_id, message_id, none⟩

/-- Embeds forward_message_with_fallback (src/main.py lines 69-103) against
an arbitrary transport: attempt the primary call; on a TelegramBadRequest
whose text contains "message thread not found" while the configured topic id
is truthy, perform the single no-topic retry; re-raise every other failure,
and any failure of the retry itself. -/
def forward_message_with_fallback (s : Settings) (transport : ForwardCall → Except TgError Unit)
    (from_chat_id message_id : Int) : FwdResult × List Eff :=
  match transport (primaryCall s from_chat_id message_id) with
  | Except.ok _ =>
    (FwdResult.primarySuccess,
      [Eff.fwd (primaryCall s from_chat_id message_id), Eff.log "forwarded"])
  | Except.error (TgError.badRequest emsg) =>
    if isTopicMissingMsg emsg && intOptTruthy s.target_topic_id then
      match transport (retryCall s from_chat_id message_id) with
      | Except.ok _ =>
        (FwdResult.retrySuccess,
          [Eff.fwd (primaryCall s from_chat_id message_id), Eff.log "topic_not_found_retry",
           Eff.fwd (retryCall s from_chat_id message_id), Eff.log "forwarded_without_topic"])
      | Except.error e2 =>
        (FwdResult.raised e2,
          [Eff.fwd (primaryCall s from_chat_id message_id), Eff.log "topic_not_found_retry",
           Eff.fwd (retryCall s from_chat_id message_id)])
    else
      (FwdResult.raised (TgError.badRequest emsg),
        [Eff.fwd (primaryCall s from_chat_id message_id)])
  | Except.error e => (FwdResult.raised e, [Eff.fwd (primaryCall s from_chat_id message_id)])

/-- The forward calls performed during a handler invocation, in order. -/
def fwdCalls (l : List Eff) : List ForwardCall :=
  l.filterMap (fun a => match a with | Eff.fwd c => some c | _ => none)

/-- C1: with a topic configured (a truthy, hence nonzero, topic id, per the
spec's settings invariant), when the primary forward fails with a
bad-request in the topic-not-found class, the engine performs exactly one
retry with the same parameters but the thread id omitted — whether that
retry succeeds or fails, exactly the two transport calls occur and no third
one — and when the retry succeeds the outcome is delivery through the
no-topic call, i.e. Delivered with usedTopic false. -/
theorem fallback_retries_exactly_once (s : Settings)
    (transport : ForwardCall → Except TgError Unit)
    (from_chat_id message_id t : Int) (emsg : String)
    (htopic : s.target_topic_id = some t) (ht : t ≠ 0)
    (hfail : transport (primaryCall s from_chat_id message_id) =
      Except.error (TgError.badRequest emsg))
    (hmiss : isTopicMissingMsg emsg = true) :
    fwdCalls (forward_message_with_fallback s transport from_chat_id message_id).2 =
      [primaryCall s from_chat_id message_id, retryCall s from_chat_id message_id] ∧
    (retryCall s from_chat_id message_id).message_thread_id = none ∧
    (transport (retryCall s from_chat_id message_id) = Except.ok () →
      (forward_message_with_fallback s transport from_chat_id message_id).1 =
        FwdResult.retrySuccess) := by
  have htr : intOptTruthy s.target_topic_id = true := by
    rw [htopic]
    simp [intOptTruthy, ht]
  unfold forward_message_with_fallback
  rw [hfail]
  simp only [hmiss, htr, Bool.and_self, if_true]
  refine ⟨?_, rfl, ?_⟩
  · cases h2 : transport (retryCall s from_chat_id message_id) <;> simp [fwdCalls]
  · intro hok
    rw [hok]

/-- Concrete configuration for closed instances: source channel 100, target
chat 200, topic 5. -/
def settings1 : Settings := ⟨"token", 100, 200, some 5, none, 30⟩

/-- Transport for the C1 witness: fails with a topic-not-found bad request
whenever a thread id is supplied, succeeds otherwise. -/
def transport1 : ForwardCall → Except TgError Unit := fun c =>
  match c.message_thread_id with
  | some _ =>
    Except.error (TgError.badRequest "Telegram server says - Bad Request: message thread not found")
  | none => Except.ok ()

/-- C1 witness: the retry scenario at concrete inputs. -/
theorem fallback_retries_exactly_once_witness :
    fwdCalls (forward_message_with_fallback settings1 transport1 100 42).2 =
      [primaryCall settings1 100 42, retryCall settings1 100 42] ∧
    (forward_message_with_fallback settings1 transport1 100 42).1 = FwdResult.retrySuccess := by
  have h := fallback_retries_exactly_once settings1 transport1 100 42 5
    "Telegram server says - Bad Request: message thread not found" rfl (by decide) rfl (by decide)
  exact ⟨h.1, h.2.2 rfl⟩

/-- Python str.split with maxsplit 1 and no separator argument: the first
whitespace-delimited token, then the untouched remainder (trailing
whitespace kept) when non-empty. -/
def splitMax1 (t : String) : List String :=
  let l := t.data.dropWhile isPySpace
  let tok := l.takeWhile (fun c => !isPySpace c)
  if tok.isEmpty then []
  else
    let rest := (l.dropWhile (fun c => !isPySpace c)).dropWhile isPySpace
    if rest.isEmpty then [tok.asString] else [tok.asString, rest.asString]

/-- The fields of an inbound event that the handlers consume. -/
structure Msg where
  chat_id : Int
  message_id : Int
  text : Option String
deriving DecidableEq

/-- Usage hint replied when /copy has no argument (src/main.py line 118). -/
def usageHint : String :=
  "Укажи ссылку на пост или его ID, например:\n/copy https://t.me/pervyi_shot/231"

/-- Format hint replied when no message id can be extracted (line 122). -/
def formatHint : String :=
  "Не нашёл ID сообщения. Формат: /copy https://t.me/pervyi_shot/231"

/-- Success reply of the command handler (line 130). -/
def successReply (n : Nat) : String :=
  "Переслал сообщение " ++ toString n ++ " из канала."

/-- Permission-problem reply (line 133). -/
def rightsHint : String :=
  "Нет прав для пересылки. Проверь, что бот админ в канале и может писать в чат/топик."

/-- Protocol-error reply (line 136). -/
def apiHint : String := "API Telegram вернул ошибку. См. логи."

/-- Generic failure reply (line 139). -/
def failHint : String := "Не удалось переслать (см. логи)."

/-- Embeds the /copy command handler copy_by_id (src/main.py lines 105-139).
Returns the effects performed and the exception escaping the handler, if
any.  The branches after the relay call mirror the except clauses in order:
TelegramForbiddenError first, then TelegramAPIError — which also catches
TelegramBadRequest, its subclass — then Exception.  The truthiness test
`if not msg_id` is falsy both for an absent id and for the id 0. -/
def copy_by_id (s : Settings) (transport : ForwardCall → Except TgError Unit)
    (message : Msg) : List Eff × Option TgError :=
  if !strOptTruthy message.text then ([Eff.log "copy_received"], none)
  else if (splitMax1 (message.text.getD "")).length < 2 then
    ([Eff.log "copy_received", Eff.reply usageHint], none)
  else
    match parse_message_id ((splitMax1 (message.text.getD "")).getD 1 "") with
    | none => ([Eff.log "copy_received", Eff.reply formatHint], none)
    | some 0 => ([Eff.log "copy_received", Eff.reply formatHint], none)
    | some (n + 1) =>
      match forward_message_with_fallback s transport s.source_channel_id (Int.ofNat (n + 1)) with
      | (FwdResult.raised (TgError.forbidden _), acts) =>
        (Eff.log "copy_received" :: acts ++ [Eff.log "exc_no_rights", Eff.reply rightsHint], none)
      | (FwdResult.raised (TgError.badRequest _), acts) =>
        (Eff.log "copy_received" :: acts ++ [Eff.log "exc_api_error", Eff.reply apiHint], none)
      | (FwdResult.raised (TgError.apiOther _), acts) =>
        (Eff.log "copy_received" :: acts ++ [Eff.log "exc_api_error", Eff.reply apiHint], none)
      | (FwdResult.raised (TgError.other _), acts) =>
        (Eff.log "copy_received" :: acts ++ [Eff.log "exc_failed", Eff.reply failHint], none)
      | (_, acts) =>
        (Eff.log "copy_received" :: acts ++ [Eff.reply (successReply (n + 1))], none)

/-- Embeds forward_channel_post (src/main.py lines 143-164): relay the
event's own message id from the configured source channel; any exception is
caught and logged, none escapes. -/
def forward_channel_post (s : Settings) (transport : ForwardCall → Except TgError Unit)
    (message : Msg) : List Eff × Option TgError :=
  match forward_message_with_fallback s transport s.source_channel_id message.message_id with
  | (FwdResult.raised _, acts) => (acts ++ [Eff.log "forward_post_failed"], none)
  | (_, acts) => (acts ++ [Eff.log "forwarded_post"], none)

/-- Embeds forward_channel_edit (src/main.py lines 166-187): identical
contract to forward_channel_post, fired for edited posts, producing a fresh
forward. -/
def forward_channel_edit (s : Settings) (transport : ForwardCall → Except TgError Unit)
    (message : Msg) : List Eff × Option TgError :=
  match forward_message_with_fallback s transport s.source_channel_id message.message_id with
  | (FwdResult.raised _, acts) => (acts ++ [Eff.log "forward_edit_failed"], none)
  | (_, acts) => (acts ++ [Eff.log "forwarded_edit"], none)

/-- Embeds the diagnostic observer log_any_channel_post (lines 189-197). -/
def log_any_channel_post (_ : Msg) : List Eff × Option TgError :=
  ([Eff.log "diag_channel_post"], none)

/-- Embeds the diagnostic observer log_any_message (lines 199-209). -/
def log_any_message (_ : Msg) : List Eff × Option TgError :=
  ([Eff.log "diag_message"], none)

theorem splitMax1_empty : splitMax1 "" = [] := rfl

theorem splitMax1_two_ne (txt cmd arg : String) (h : splitMax1 txt = [cmd, arg]) :
    txt ≠ "" := by
  intro he
  subst he
  rw [splitMax1_empty] at h
  cases h

theorem strOptTruthy_some (txt : String) (h : txt ≠ "") :
    strOptTruthy (some txt) = true := by
  simp only [strOptTruthy]
  cases he : txt.isEmpty
  · rfl
  · exact absurd ((String.isEmpty_iff txt).mp he) h

/-- C5: on a command with no argument the handler replies with the usage
hint and performs no forward call; on an argument from which no message id
can be extracted it replies with the format hint and performs no forward
call — in both cases the relay engine is never invoked. -/
theorem copy_without_valid_arg_never_relays (s : Settings)
    (transport : ForwardCall → Except TgError Unit) (m : Msg) (txt : String)
    (htext : m.text = some txt) (hne : txt ≠ "") :
    ((splitMax1 txt).length < 2 →
      copy_by_id s transport m = ([Eff.log "copy_received", Eff.reply usageHint], none)) ∧
    (∀ cmd arg, splitMax1 txt = [cmd, arg] → parse_message_id arg = none →
      copy_by_id s transport m = ([Eff.log "copy_received", Eff.reply formatHint], none)) := by
  have htr : strOptTruthy m.text = true := by
    rw [htext]
    exact strOptTruthy_some txt hne
  constructor
  · intro hlen
    unfold copy_by_id
    rw [htr]
    simp only [Bool.not_true, Bool.false_eq_true, if_false]
    rw [htext]
    simp only [Option.getD_some]
    rw [if_pos hlen]
  · intro cmd arg hparts hparse
    unfold copy_by_id
    rw [htr]
    simp only [Bool.not_true, Bool.false_eq_true, if_false]
    rw [htext]
    simp only [Option.getD_some]
    rw [hparts]
    simp only [List.length_cons, List.length_nil]
    rw [if_neg (by omega)]
    simp only [List.getD, List.get?_cons_succ, List.get?_cons_zero, Option.getD_some]
    rw [hparse]

/-- C5 witness: the bare command and a digit-free argument at concrete
inputs. -/
theorem copy_without_valid_arg_never_relays_witness :
    copy_by_id settings1 transport1 (Msg.mk 1 7 (some "/copy")) =
      ([Eff.log "copy_received", Eff.reply usageHint], none) ∧
    copy_by_id settings1 transport1 (Msg.mk 1 7 (some "/copy abc")) =
      ([Eff.log "copy_received", Eff.reply formatHint], none) := by
  constructor
  · exact (copy_without_valid_arg_never_relays settings1 transport1
      (Msg.mk 1 7 (some "/copy")) "/copy" rfl (by decide)).1 (by decide)
  · exact (copy_without_valid_arg_never_relays settings1 transport1
      (Msg.mk 1 7 (some "/copy abc")) "/copy abc" rfl (by decide)).2 "/copy" "abc"
      (by decide) (by simp [parse_message_id, pySplit, isPySpace, mapToSpace])

/-- C10: for an argument whose last maximal digit run has value 0, the
extractor does return 0, but the handler's Python truthiness test
`if not msg_id` conflates the id 0 with absence: it replies with the format
hint and never invokes the relay engine. -/
theorem zero_message_id_treated_as_missing (s : Settings)
    (transport : ForwardCall → Except TgError Unit) (m : Msg) (txt cmd arg : String)
    (htext : m.text = some txt) (hparts : splitMax1 txt = [cmd, arg])
    (hzero : parse_message_id arg = some 0) :
    copy_by_id s transport m = ([Eff.log "copy_received", Eff.reply formatHint], none) := by
  have htr : strOptTruthy m.text = true := by
    rw [htext]
    exact strOptTruthy_some txt (splitMax1_two_ne txt cmd arg hparts)
  unfold copy_by_id
  rw [htr]
  simp only [Bool.not_true, Bool.false_eq_true, if_false]
  rw [htext]
  simp only [Option.getD_some]
  rw [hparts]
  simp only [List.length_cons, List.length_nil]
  rw [if_neg (by omega)]
  simp only [List.getD, List.get?_cons_succ, List.get?_cons_zero, Option.getD_some]
  rw [hzero]

/-- C10 witness: the invocation "/copy 0" replies with the format hint even
though the extractor yields the id 0. -/
theorem zero_message_id_treated_as_missing_witness :
    parse_message_id "0" = some 0 ∧
    copy_by_id settings1 transport1 (Msg.mk 1 7 (some "/copy 0")) =
      ([Eff.log "copy_received", Eff.reply formatHint], none) := by
  have hz : parse_message_id "0" = some 0 := by
    simp [parse_message_id, pySplit, isPySpace, mapToSpace, digitsToNat]
  exact ⟨hz, zero_message_id_treated_as_missing settings1 transport1
    (Msg.mk 1 7 (some "/copy 0")) "/copy 0" "/copy" "0" rfl (by decide) hz⟩

/-- The topic-not-found failure class (the spec's TopicMissing): a bad
request whose text contains "message thread not found". -/
def topicClass : TgError → Bool
  | TgError.badRequest emsg => isTopicMissingMsg emsg
  | _ => false

theorem no_retry_of_not_topicClass (s : Settings)
    (transport : ForwardCall → Except TgError Unit) (from_chat_id message_id : Int)
    (e : TgError) (hclass : topicClass e = false)
    (hfail : transport (primaryCall s from_chat_id message_id) = Except.error e) :
    forward_message_with_fallback s transport from_chat_id message_id =
      (FwdResult.raised e, [Eff.fwd (primaryCall s from_chat_id message_id)]) := by
  unfold forward_message_with_fallback
  rw [hfail]
  cases e with
  | badRequest emsg =>
    simp only [topicClass] at hclass
    simp [hclass]
  | forbidden emsg => rfl
  | apiOther emsg => rfl
  | other emsg => rfl

/-- C2: with a topic configured, when the primary forward fails with any
error outside the topic-not-found class, no retry occurs — exactly one
transport call — and the outcome is the re-raised original exception; in
the command handler the classification maps a permission failure to the
permission reply, protocol errors (bad requests and other API errors) to
the protocol-error reply, and any other failure to the generic reply. -/
theorem non_topic_errors_not_retried (s : Settings)
    (transport : ForwardCall → Except TgError Unit) (m : Msg)
    (txt cmd arg : String) (n : Nat) (t : Int) (e : TgError)
    (_htopic : s.target_topic_id = some t)
    (hclass : topicClass e = false)
    (htext : m.text = some txt) (hparts : splitMax1 txt = [cmd, arg])
    (hparse : parse_message_id arg = some (n + 1))
    (hfail : transport (primaryCall s s.source_channel_id (Int.ofNat (n + 1))) =
      Except.error e) :
    (forward_message_with_fallback s transport s.source_channel_id (Int.ofNat (n + 1))).1 =
      FwdResult.raised e ∧
    fwdCalls (forward_message_with_fallback s transport s.source_channel_id
        (Int.ofNat (n + 1))).2 =
      [primaryCall s s.source_channel_id (Int.ofNat (n + 1))] ∧
    copy_by_id s transport m =
      (Eff.log "copy_received" :: Eff.fwd (primaryCall s s.source_channel_id (Int.ofNat (n + 1))) ::
        (match e with
         | TgError.forbidden _ => [Eff.log "exc_no_rights", Eff.reply rightsHint]
         | TgError.badRequest _ => [Eff.log "exc_api_error", Eff.reply apiHint]
         | TgError.apiOther _ => [Eff.log "exc_api_error", Eff.reply apiHint]
         | TgError.other _ => [Eff.log "exc_failed", Eff.reply failHint]), none) := by
  have hfw := no_retry_of_not_topicClass s transport s.source_channel_id
    (Int.ofNat (n + 1)) e hclass hfail
  have htr : strOptTruthy m.text = true := by
    rw [htext]
    exact strOptTruthy_some txt (splitMax1_two_ne txt cmd arg hparts)
  refine ⟨by rw [hfw], by rw [hfw]; rfl, ?_⟩
  unfold copy_by_id
  rw [htr]
  simp only [Bool.not_true, Bool.false_eq_true, if_false]
  rw [htext]
  simp only [Option.getD_some]
  rw [hparts]
  simp only [List.length_cons, List.length_nil]
  rw [if_neg (by omega)]
  simp only [List.getD, List.get?_cons_succ, List.get?_cons_zero, Option.getD_some]
  split
  · rename_i heq
    rw [hparse] at heq
    cases heq
  · rename_i heq
    rw [hparse] at heq
    have hz := Option.some.inj heq
    omega
  · rename_i k heq
    rw [hparse] at heq
    have hk : k = n := by
      have := Option.some.inj heq
      omega
    subst hk
    rw [hfw]
    cases e <;> rfl

/-- Transport for the C2 witness: always raises a permission failure. -/
def transport2 : ForwardCall → Except TgError Unit := fun _ =>
  Except.error (TgError.forbidden "bot was kicked")

/-- C2 witness: an off-class (permission) failure at concrete inputs yields
one single forward call and the permission reply. -/
theorem non_topic_errors_not_retried_witness :
    copy_by_id settings1 transport2 (Msg.mk 1 7 (some "/copy 231")) =
      (Eff.log "copy_received" :: Eff.fwd (primaryCall settings1 100 231) ::
        [Eff.log "exc_no_rights", Eff.reply rightsHint], none) := by
  have h := non_topic_errors_not_retried settings1 transport2
    (Msg.mk 1 7 (some "/copy 231")) "/copy 231" "/copy" "231" 230 5
    (TgError.forbidden "bot was kicked") rfl rfl rfl (by decide)
    (by simp [parse_message_id, pySplit, isPySpace, mapToSpace, digitsToNat]) rfl
  exact h.2.2

/-- C6: failures inside a single handler invocation are fully contained:
for every transport behavior and every inbound message no exception escapes
any of the three handlers; the command handler records its inbound log in
every branch; when the forward call raises, each channel handler appends
its failure log record, and the command handler appends a failure log
record together with the user-facing reply determined by the exception
class. -/
theorem handler_failures_contained (s : Settings)
    (transport : ForwardCall → Except TgError Unit) (m : Msg) :
    (copy_by_id s transport m).2 = none ∧
    (forward_channel_post s transport m).2 = none ∧
    (forward_channel_edit s transport m).2 = none ∧
    (copy_by_id s transport m).1.head? = some (Eff.log "copy_received") ∧
    (∀ e, (forward_message_with_fallback s transport s.source_channel_id m.message_id).1 =
        FwdResult.raised e →
      (forward_channel_post s transport m).1 =
        (forward_message_with_fallback s transport s.source_channel_id m.message_id).2 ++
          [Eff.log "forward_post_failed"] ∧
      (forward_channel_edit s transport m).1 =
        (forward_message_with_fallback s transport s.source_channel_id m.message_id).2 ++
          [Eff.log "forward_edit_failed"]) ∧
    (∀ txt cmd arg n e, m.text = some txt → splitMax1 txt = [cmd, arg] →
      parse_message_id arg = some (n + 1) →
      (forward_message_with_fallback s transport s.source_channel_id (Int.ofNat (n + 1))).1 =
        FwdResult.raised e →
      copy_by_id s transport m =
        (Eff.log "copy_received" ::
          (forward_message_with_fallback s transport s.source_channel_id (Int.ofNat (n + 1))).2 ++
          (match e with
           | TgError.forbidden _ => [Eff.log "exc_no_rights", Eff.reply rightsHint]
           | TgError.badRequest _ => [Eff.log "exc_api_error", Eff.reply apiHint]
           | TgError.apiOther _ => [Eff.log "exc_api_error", Eff.reply apiHint]
           | TgError.other _ => [Eff.log "exc_failed", Eff.reply failHint]), none)) := by
  refine ⟨?_, ?_, ?_, ?_, ?_, ?_⟩
  · unfold copy_by_id
    repeat' split
    all_goals rfl
  · unfold forward_channel_post
    repeat' split
    all_goals rfl
  · unfold forward_channel_edit
    repeat' split
    all_goals rfl
  · unfold copy_by_id
    repeat' split
    all_goals rfl
  · intro e he
    cases hfw : forward_message_with_fallback s transport s.source_channel_id m.message_id with
    | mk res acts =>
      rw [hfw] at he
      have he2 : res = FwdResult.raised e := he
      subst he2
      constructor
      · unfold forward_channel_post
        rw [hfw]
      · unfold forward_channel_edit
        rw [hfw]
  · intro txt cmd arg n e htext hparts hparse hfail
    have htr : strOptTruthy m.text = true := by
      rw [htext]
      exact strOptTruthy_some txt (splitMax1_two_ne txt cmd arg hparts)
    unfold copy_by_id
    rw [htr]
    simp only [Bool.not_true, Bool.false_eq_true, if_false]
    rw [htext]
    simp only [Option.getD_some]
    rw [hparts]
    simp only [List.length_cons, List.length_nil]
    rw [if_neg (by omega)]
    simp only [List.getD, List.get?_cons_succ, List.get?_cons_zero, Option.getD_some]
    split
    · rename_i heq
      rw [hparse] at heq
      cases heq
    · rename_i heq
      rw [hparse] at heq
      have hz := Option.some.inj heq
      omega
    · rename_i k heq
      rw [hparse] at heq
      have hk : k = n := by
        have := Option.some.inj heq
        omega
      subst hk
      cases hfw : forward_message_with_fallback s transport s.source_channel_id
          (Int.ofNat (k + 1)) with
      | mk res acts =>
        rw [hfw] at hfail
        have he2 : res = FwdResult.raised e := hfail
        subst he2
        cases e <;> rfl

/-- C6 witness: with a transport that always raises a permission failure,
the channel handler appends its failure log and the command handler replies
with the permission message after its failure log. -/
theorem handler_failures_contained_witness :
    (forward_channel_post settings1 transport2 (Msg.mk 100 7 (some "/copy 231"))).1 =
      [Eff.fwd (primaryCall settings1 100 7), Eff.log "forward_post_failed"] ∧
    copy_by_id settings1 transport2 (Msg.mk 100 7 (some "/copy 231")) =
      (Eff.log "copy_received" :: [Eff.fwd (primaryCall settings1 100 231)] ++
        [Eff.log "exc_no_rights", Eff.reply rightsHint], none) := by
  have h := handler_failures_contained settings1 transport2 (Msg.mk 100 7 (some "/copy 231"))
  constructor
  · have hc := (h.2.2.2.2.1 (TgError.forbidden "bot was kicked") rfl).1
    rw [hc]
    rfl
  · have hcopy := h.2.2.2.2.2 "/copy 231" "/copy" "231" 230
      (TgError.forbidden "bot was kicked") rfl (by decide)
      (by simp [parse_message_id, pySplit, isPySpace, mapToSpace, digitsToNat]) rfl
    rw [hcopy]
    rfl

/-- One handler registration on the router: its filter, whether it is a
specific (blocking) handler or a flags block-False diagnostic observer, and
its body. -/
structure Registered where
  filt : Msg → Bool
  blocking : Bool
  run : Msg → List Eff × Option TgError

/-- The source-channel filter only_source_channel (src/main.py line 141). -/
def only_source_channel (s : Settings) (m : Msg) : Bool :=
  m.chat_id == s.source_channel_id

/-- The Command "copy" filter: the first whitespace-delimited token of the
text is the command /copy (bot-mention suffixes are outside the model). -/
def isCopyCommand (m : Msg) : Bool :=
  match m.text with
  | none => false
  | some t => (splitMax1 t).head? == some "/copy"

/-- The channel_post registrations of build_router in source order
(src/main.py lines 143 and 189): the source-filtered forwarding handler,
then the diagnostic observer registered with flags block False. -/
def channel_post_handlers (s : Settings) (transport : ForwardCall → Except TgError Unit) :
    List Registered :=
  [⟨only_source_channel s, true, forward_channel_post s transport⟩,
   ⟨fun _ => true, false, log_any_channel_post⟩]

/-- The edited_channel_post registrations (line 166): only the
source-filtered forwarding handler. -/
def edited_channel_post_handlers (s : Settings) (transport : ForwardCall → Except TgError Unit) :
    List Registered :=
  [⟨only_source_channel s, true, forward_channel_edit s transport⟩]

/-- The message registrations in source order (lines 105 and 199): the
/copy command handler, then the diagnostic observer registered with flags
block False. -/
def message_handlers (s : Settings) (transport : ForwardCall → Except TgError Unit) :
    List Registered :=
  [⟨isCopyCommand, true, copy_by_id s transport⟩,
   ⟨fun _ => true, false, log_any_message⟩]

/-- Modelled from the spec: the dispatch loop lives in the aiogram framework
and is not part of src/.  The spec's design notes prescribe an ordered list
of (predicate, handler) pairs in which filters are evaluated before handler
bodies, the first matching specific handler wins among the specific ones,
and diagnostic observers registered with flags block False run on an
always-true predicate that can neither veto dispatch to the specific
handler nor be suppressed by it.  The result concatenates the effects of
every handler that ran, in registration order. -/
def dispatchAux : List Registered → Msg → Bool → List Eff
  | [], _, _ => []
  | h :: rest, ev, specificDone =>
    if h.filt ev then
      if h.blocking then
        if specificDone then dispatchAux rest ev true
        else (h.run ev).1 ++ dispatchAux rest ev true
      else (h.run ev).1 ++ dispatchAux rest ev specificDone
    else dispatchAux rest ev specificDone

/-- Modelled from the spec: dispatch of one inbound event over the ordered
registrations, starting with no specific handler having run yet. -/
def dispatch (hs : List Registered) (ev : Msg) : List Eff := dispatchAux hs ev false

/-- C4: a channel-post or edited-channel-post event whose origin chat
differs from the configured source channel never invokes the relay engine:
its dispatch performs no forward call — a plain post produces only the
diagnostic log and an edited post produces nothing at all. -/
theorem offsource_posts_never_relayed (s : Settings)
    (transport : ForwardCall → Except TgError Unit) (m : Msg)
    (hchat : m.chat_id ≠ s.source_channel_id) :
    dispatch (channel_post_handlers s transport) m = [Eff.log "diag_channel_post"] ∧
    dispatch (edited_channel_post_handlers s transport) m = [] ∧
    fwdCalls (dispatch (channel_post_handlers s transport) m) = [] := by
  have hf : only_source_channel s m = false := by
    simp [only_source_channel, hchat]
  refine ⟨?_, ?_, ?_⟩
  · simp [dispatch, dispatchAux, channel_post_handlers, hf, log_any_channel_post]
  · simp [dispatch, dispatchAux, edited_channel_post_handlers, hf]
  · simp [dispatch, dispatchAux, channel_post_handlers, hf, log_any_channel_post, fwdCalls]

/-- C4 witness: a post from chat 999 against source channel 100. -/
theorem offsource_posts_never_relayed_witness :
    dispatch (channel_post_handlers settings1 transport1) (Msg.mk 999 42 none) =
      [Eff.log "diag_channel_post"] ∧
    dispatch (edited_channel_post_handlers settings1 transport1) (Msg.mk 999 42 none) = [] := by
  have h := offsource_posts_never_relayed settings1 transport1 (Msg.mk 999 42 none) (by decide)
  exact ⟨h.1, h.2.1⟩

/-- C7 (dispatch modelled from the spec's design notes): for every inbound
channel-post and message event, whatever its origin chat, the diagnostic
observer produces its log record; and when the specific handler's filter
matches, that handler still runs to completion — its effects are a prefix
of the dispatch trace — so neither handler suppresses the other. -/
theorem diagnostic_handler_always_logs (s : Settings)
    (transport : ForwardCall → Except TgError Unit) (m : Msg) :
    Eff.log "diag_channel_post" ∈ dispatch (channel_post_handlers s transport) m ∧
    Eff.log "diag_message" ∈ dispatch (message_handlers s transport) m ∧
    (only_source_channel s m = true →
      (forward_channel_post s transport m).1 <+:
        dispatch (channel_post_handlers s transport) m) ∧
    (isCopyCommand m = true →
      (copy_by_id s transport m).1 <+: dispatch (message_handlers s transport) m) := by
  refine ⟨?_, ?_, ?_, ?_⟩
  · cases hf : only_source_channel s m <;>
      simp [dispatch, dispatchAux, channel_post_handlers, hf, log_any_channel_post]
  · cases hf : isCopyCommand m <;>
      simp [dispatch, dispatchAux, message_handlers, hf, log_any_message]
  · intro hf
    simp [dispatch, dispatchAux, channel_post_handlers, hf, log_any_channel_post]
  · intro hf
    simp [dispatch, dispatchAux, message_handlers, hf, log_any_message]

/-- C7 witness: an on-source post and a /copy message at concrete inputs. -/
theorem diagnostic_handler_always_logs_witness :
    Eff.log "diag_channel_post" ∈
      dispatch (channel_post_handlers settings1 transport1) (Msg.mk 100 42 (some "/copy 231")) ∧
    (forward_channel_post settings1 transport1 (Msg.mk 100 42 (some "/copy 231"))).1 <+:
      dispatch (channel_post_handlers settings1 transport1) (Msg.mk 100 42 (some "/copy 231")) ∧
    (copy_by_id settings1 transport1 (Msg.mk 100 42 (some "/copy 231"))).1 <+:
      dispatch (message_handlers settings1 transport1) (Msg.mk 100 42 (some "/copy 231")) := by
  have h := diagnostic_handler_always_logs settings1 transport1 (Msg.mk 100 42 (some "/copy 231"))
  exact ⟨h.1, h.2.2.1 (by decide), h.2.2.2 (by decide)⟩
